import Mathlib

/-!
Verification development for the elkridge repository: an SQLite database
exposed as a FUSE filesystem.  The definitions below are a shallow
embedding of `src/basic.rs` and `src/main.rs`:

* the database state is the lists of rows of the tables `Inode`, `Path`
  and `Page` created by `Elkridge::new`;
* every SQL statement of the source is modelled by first checking that
  each column it references exists in its scope (SQLite refuses to
  prepare a statement naming an unknown column, and `rusqlite` row
  getters by name fail on columns absent from the result set), and then
  by its row-level semantics;
* fallible calls return `Except SqlError`.
-/

/-- Storage-layer failures, mirroring the `rusqlite` error kinds the code
can hit: unknown column at prepare or row-get time, unknown table, a
query returning no rows, an INSERT whose column list does not match its
values, and an integral column value out of range of the requested Rust
type. -/
inductive SqlError
  | noSuchColumn
  | noSuchTable
  | queryReturnedNoRows
  | insertMismatch
  | outOfRange
deriving DecidableEq, Repr

deriving instance DecidableEq for Except

/-- `fuse::FileType`, decoded from the integer kind codes documented in
the schema of `Elkridge::new`. -/
inductive FileType
  | namedPipe
  | charDevice
  | blockDevice
  | directory
  | regularFile
  | symlink
  | socket
deriving DecidableEq, Repr

/-- `time::Timespec` (seconds, nanoseconds). -/
structure Timespec where
  sec : Int
  nsec : Int
deriving DecidableEq, Repr

/-- `fuse::FileAttr` as filled in by `Elkridge::generate_fileattr_from_row`. -/
structure FileAttr where
  ino : Int
  size : Int
  blocks : Int
  atime : Timespec
  mtime : Timespec
  ctime : Timespec
  crtime : Timespec
  kind : FileType
  perm : Int
  nlink : Int
  uid : Int
  gid : Int
  rdev : Int
  flags : Int
deriving DecidableEq, Repr

/-- One row of the `Inode` table (all columns of the DDL in
`Elkridge::new`). -/
structure InodeRow where
  inode : Int
  size : Int
  blocks : Int
  atime : Int
  mtime : Int
  ctime : Int
  crtime : Int
  kind : Int
  perm : Int
  uid : Int
  gid : Int
  rdev : Int
  flags : Int
deriving DecidableEq, Repr

/-- One row of the `Path` table. -/
structure PathRow where
  inode : Int
  parent : Int
  name : String
deriving DecidableEq, Repr

/-- One row of the `Page` table; `content` is the BLOB as a byte list. -/
structure PageRow where
  inode : Int
  start : Int
  finish : Int
  content : List Nat
deriving DecidableEq, Repr

/-- The database state: the three tables owned by the connection. -/
structure DB where
  inodes : List InodeRow
  paths : List PathRow
  pages : List PageRow
deriving DecidableEq, Repr

/-- Columns of the `Inode` table, in DDL order. -/
def inodeColumns : List String :=
  ["inode", "size", "blocks", "atime", "mtime", "ctime", "crtime",
   "kind", "perm", "uid", "gid", "rdev", "flags"]

/-- Columns of the `Path` table. -/
def pathColumns : List String := ["inode", "parent", "name"]

/-- Columns of the `Page` table. -/
def pageColumns : List String := ["inode", "start", "finish", "content"]

/-- Whether every requested column name resolves in the given scope. -/
def colsPresent (need avail : List String) : Bool :=
  need.all (fun c => avail.contains c)

/-- SQLite statement preparation: fails with a no-such-column error when
some referenced column is absent from the scope. -/
def prepareSelect (need avail : List String) : Except SqlError Unit :=
  if colsPresent need avail then .ok () else .error .noSuchColumn

/-- Statements of the `Elkridge::new` initialization batch, reduced to
what its static validation needs: which table and columns each one
declares or references.  `checkRefs` are the column names appearing in
CHECK clauses, `refs` the columns an index covers, and an INSERT carries
its column list and how many values it supplies. -/
inductive Stmt
  | createTable (tname : String) (cols : List String) (checkRefs : List String)
  | createIndex (tname : String) (refs : List String)
  | insertInto (tname : String) (cols : List String) (numVals : Nat)
deriving DecidableEq, Repr

/-- The catalog of created tables. -/
abbrev Catalog := List (String × List String)

/-- Look a table up in the catalog. -/
def catFind (cat : Catalog) (t : String) : Option (List String) :=
  (cat.find? (fun e => e.1 == t)).map (fun e => e.2)

/-- Static validation of one statement against the catalog, as SQLite
performs it: CHECK clauses and index columns must name declared columns,
and an INSERT must name existing columns with as many values as
columns. -/
def stepStmt (cat : Catalog) : Stmt → Except SqlError Catalog
  | .createTable t cols refs =>
    if colsPresent refs cols then .ok ((t, cols) :: cat) else .error .noSuchColumn
  | .createIndex t refs =>
    match catFind cat t with
    | some cols => if colsPresent refs cols then .ok cat else .error .noSuchColumn
    | none => .error .noSuchTable
  | .insertInto t cols n =>
    match catFind cat t with
    | some tcols =>
      if colsPresent cols tcols && cols.length == n then .ok cat
      else .error .insertMismatch
    | none => .error .noSuchTable

/-- `Connection::execute_batch`: run statements in order, stopping at the
first error. -/
def execBatch (cat : Catalog) : List Stmt → Except SqlError Catalog
  | [] => .ok cat
  | s :: rest =>
    match stepStmt cat s with
    | .ok cat2 => execBatch cat2 rest
    | .error e => .error e

/-- The root `Path` INSERT of `Elkridge::new`: it names four columns
(`inode`, `parent`, `name` and `kind`, which `Path` does not have) but
supplies three values `(0, 0, chr47)`. -/
def rootPathInsertStmt : Stmt :=
  .insertInto "Path" ["inode", "parent", "name", "kind"] 3

/-- The full initialization batch of `Elkridge::new`, in source order.
The `Page` CREATE carries CHECK clauses `offset >= 0` on both `start`
and `finish`, referencing a column `offset` that the table does not
declare. -/
def elkridgeStmts : List Stmt :=
  [ .createTable "Inode" inodeColumns ["size", "blocks"],
    .createTable "Path" pathColumns ["name"],
    .createIndex "Path" ["parent"],
    .createTable "Page" pageColumns ["offset", "offset"],
    .createIndex "Page" ["inode"],
    .insertInto "Inode" ["inode", "kind"] 2,
    rootPathInsertStmt ]

/-- The catalog all three CREATE TABLE statements would produce were
they valid, used to examine the later statements of the batch in
isolation. -/
def intendedCatalog : Catalog :=
  [("Page", pageColumns), ("Path", pathColumns), ("Inode", inodeColumns)]

/-- Whether a byte is a UTF-8 continuation byte. -/
def isCont (b : Nat) : Bool := 128 ≤ b && b ≤ 191

/-- Decode one UTF-8 scalar from the front of the byte list.  On success
returns the code point and the number of bytes consumed; on failure
returns the length of the maximal subpart consumed (at least the lead
byte).  Models the strict UTF-8 validation of the Rust standard
library (used by `OsStr::to_str` and `OsStr::to_string_lossy`, which the
source calls to turn request names into query parameters). -/
def utf8DecodeOne : List Nat → Except Nat (Nat × Nat)
  | [] => .error 1
  | b :: rest =>
    if b ≤ 127 then
      .ok (b, 1)
    else if 194 ≤ b && b ≤ 223 then
      match rest with
      | c1 :: _ =>
        if isCont c1 then .ok ((b - 192) * 64 + (c1 - 128), 2) else .error 1
      | [] => .error 1
    else if 224 ≤ b && b ≤ 239 then
      let lo := if b == 224 then 160 else 128
      let hi := if b == 237 then 159 else 191
      match rest with
      | c1 :: rest2 =>
        if lo ≤ c1 && c1 ≤ hi then
          match rest2 with
          | c2 :: _ =>
            if isCont c2 then
              .ok ((b - 224) * 4096 + (c1 - 128) * 64 + (c2 - 128), 3)
            else .error 2
          | [] => .error 2
        else .error 1
      | [] => .error 1
    else if 240 ≤ b && b ≤ 244 then
      let lo := if b == 240 then 144 else 128
      let hi := if b == 244 then 143 else 191
      match rest with
      | c1 :: rest2 =>
        if lo ≤ c1 && c1 ≤ hi then
          match rest2 with
          | c2 :: rest3 =>
            if isCont c2 then
              match rest3 with
              | c3 :: _ =>
                if isCont c3 then
                  .ok ((b - 240) * 262144 + (c1 - 128) * 4096 +
                       (c2 - 128) * 64 + (c3 - 128), 4)
                else .error 3
              | [] => .error 3
            else .error 2
          | [] => .error 2
        else .error 1
      | [] => .error 1
    else .error 1

/-- Strict UTF-8 decoding with fuel (the byte count suffices since every
step consumes at least one byte). -/
def utf8DecodeAux : Nat → List Nat → Option (List Char)
  | _, [] => some []
  | 0, _ :: _ => none
  | fuel + 1, b :: rest =>
    match utf8DecodeOne (b :: rest) with
    | .ok (cp, n) => (utf8DecodeAux fuel ((b :: rest).drop n)).map (fun cs => Char.ofNat cp :: cs)
    | .error _ => none

/-- `OsStr::to_str`: `some` exactly on valid UTF-8 byte sequences. -/
def utf8DecodeOpt (bytes : List Nat) : Option String :=
  (utf8DecodeAux bytes.length bytes).map String.mk

/-- Lossy UTF-8 decoding: each maximal invalid subpart becomes one
replacement character U+FFFD. -/
def utf8LossyAux : Nat → List Nat → List Char
  | _, [] => []
  | 0, _ :: _ => []
  | fuel + 1, b :: rest =>
    match utf8DecodeOne (b :: rest) with
    | .ok (cp, n) => Char.ofNat cp :: utf8LossyAux fuel ((b :: rest).drop n)
    | .error k => Char.ofNat 65533 :: utf8LossyAux fuel ((b :: rest).drop (max k 1))

/-- `OsStr::to_string_lossy`. -/
def utf8Lossy (bytes : List Nat) : String :=
  String.mk (utf8LossyAux bytes.length bytes)

/-- The name parameter `lookup_basic` binds: `name.to_str().unwrap_or("")`
(src/basic.rs line 40) — invalid UTF-8 silently becomes the empty
string. -/
def lookupBoundName (name : List Nat) : String :=
  (utf8DecodeOpt name).getD ""

/-- The name parameter `mkdir_basic` and `rmdir_basic` bind:
`name.to_string_lossy()`. -/
def mkdirBoundName (name : List Nat) : String := utf8Lossy name

/-- Byte list of an ASCII string, for concrete inputs. -/
def asciiBytes (s : String) : List Nat := s.toList.map Char.toNat

/-- `Elkridge::filetype_from_code`. -/
def filetype_from_code (code : Int) : FileType :=
  if code == 0 then .namedPipe
  else if code == 1 then .charDevice
  else if code == 2 then .blockDevice
  else if code == 3 then .directory
  else if code == 4 then .regularFile
  else if code == 5 then .symlink
  else if code == 6 then .socket
  else .regularFile

/-- `Elkridge::generate_fileattr_from_row`: converts an `Inode` row plus
the computed `nlink` into a `FileAttr`.  Timestamps get nanosecond zero
and `rdev` and `flags` are fixed at zero regardless of the row. -/
def generate_fileattr_from_row (r : InodeRow) (nlink : Int) : FileAttr :=
  { ino := r.inode
    size := r.size
    blocks := r.blocks
    atime := ⟨r.atime, 0⟩
    mtime := ⟨r.mtime, 0⟩
    ctime := ⟨r.ctime, 0⟩
    crtime := ⟨r.crtime, 0⟩
    kind := filetype_from_code r.kind
    perm := r.perm
    nlink := nlink
    uid := r.uid
    gid := r.gid
    rdev := 0
    flags := 0 }

/-- The `nlink` subquery: `count(*) FROM Path WHERE Path.inode = Inode.inode`. -/
def nlinkOf (db : DB) (ino : Int) : Int :=
  (db.paths.filter (fun r => r.inode == ino)).length

/-- Largest `Inode` rowid present (zero when the table is empty). -/
def maxInode (l : List InodeRow) : Int :=
  l.foldl (fun m r => max m r.inode) 0

/-- The rowid SQLite assigns to a fresh `Inode` INSERT that does not
supply `inode`: one more than the current largest rowid. -/
def nextRowid (db : DB) : Int := maxInode db.inodes + 1

/-- `row.get` at Rust type `i8`: fails when the stored integer is out of
range (used by the readdir handlers on the `inode` column). -/
def getI8 (v : Int) : Except SqlError Int :=
  if -128 ≤ v && v ≤ 127 then .ok v else .error .outOfRange

/-- Columns the outer WHERE of the lookup query references. -/
def lookupWhereCols : List String := ["parent", "name"]

/-- The lookup statement shared by `lookup_basic` (src/basic.rs) and
`Filesystem::lookup` (src/main.rs, which inlines the identical SQL):
`SELECT *, (SELECT count(*) FROM Path WHERE Path.inode = Inode.inode) AS
nlink FROM Inode WHERE parent = ? AND name = ?`.  Its FROM scope is the
`Inode` table alone, which has no `parent` or `name` column, so SQLite
never prepares it and the call always fails. -/
def lookupQuery (db : DB) (parent : Int) (name : String) : Except SqlError FileAttr :=
  match prepareSelect lookupWhereCols inodeColumns with
  | .error e => .error e
  | .ok _ =>
    -- unreachable: preparation always fails on the missing columns
    .error .queryReturnedNoRows

/-- `BasicFilesystem::lookup_basic` for `Elkridge`. -/
def lookup_basic (db : DB) (parent : Int) (name : List Nat) : Except SqlError FileAttr :=
  lookupQuery db parent (lookupBoundName name)

/-- `BasicFilesystem::getattr_basic`: `SELECT *, nlink FROM Inode WHERE
inode = ?`, then `generate_fileattr_from_row`. -/
def getattr_basic (db : DB) (ino : Int) : Except SqlError FileAttr :=
  match db.inodes.find? (fun r => r.inode == ino) with
  | some r => .ok (generate_fileattr_from_row r (nlinkOf db r.inode))
  | none => .error .queryReturnedNoRows

/-- The WHERE clause of `read_basic`: `inode = ?1 AND start <= ?2 AND
finish >= ?3`, bound to `(ino, offset, offset + size)` — the page range
must contain the whole requested window. -/
def readPred (ino offset size : Int) (p : PageRow) : Bool :=
  p.inode == ino && decide (p.start ≤ offset) && decide (offset + size ≤ p.finish)

/-- The buffer `read_basic` assembles: matching pages ordered by `start`
ascending, each contributing its entire `content`. -/
def readBuf (db : DB) (ino offset size : Int) : List Nat :=
  (List.insertionSort (fun a b : PageRow => a.start ≤ b.start)
      (db.pages.filter (readPred ino offset size))).foldl
    (fun buf p => buf ++ p.content) []

/-- `BasicFilesystem::read_basic`: its SELECT list is `content, start`,
both `Page` columns, so preparation succeeds. -/
def read_basic (db : DB) (ino offset size : Int) : Except SqlError (List Nat) :=
  match prepareSelect ["content", "start"] pageColumns with
  | .error e => .error e
  | .ok _ => .ok (readBuf db ino offset size)

/-- The entry record built by `readdir_basic`. -/
structure DirectoryEntry where
  ino : Int
  offset : Int
  kind : FileType
  name : String
deriving DecidableEq, Repr

/-- Scope of `Path NATURAL JOIN Inode` (the shared `inode` column is
coalesced). -/
def readdirScopeCols : List String := ["inode", "parent", "name"] ++ inodeColumns

/-- Row semantics of the readdir query: `Path` rows with the requested
parent, inner-joined to `Inode` on `inode`.  Each result row is mapped
to an entry whose `kind` the source decodes from `row.get("inode")` —
the inode id, not the selected `kind` column — at Rust type `i8`, and
whose offset is the constant 0. -/
def readdirEntries (db : DB) (ino : Int) : Except SqlError (List DirectoryEntry) :=
  ((db.paths.filter (fun r => r.parent == ino)).flatMap
      (fun p => (db.inodes.filter (fun i => i.inode == p.inode)).map (fun _ => p))).mapM
    (fun p =>
      match getI8 p.inode with
      | .ok code =>
        .ok { ino := p.inode, offset := 0, kind := filetype_from_code code, name := p.name }
      | .error e => .error e)

/-- `BasicFilesystem::readdir_basic`: SELECT list `inode, name, kind`,
all present in the join scope, so preparation succeeds. -/
def readdir_basic (db : DB) (ino : Int) : Except SqlError (List DirectoryEntry) :=
  match prepareSelect ["inode", "name", "kind"] readdirScopeCols with
  | .error e => .error e
  | .ok _ => readdirEntries db ino

/-- Result columns of the existence-check query inside `mkdir_basic`:
`SELECT inode FROM Path WHERE parent = ? AND name = ?`. -/
def mkdirCheckSelectCols : List String := ["inode"]

/-- `row.get` by column name against a result row: fails (here, `none`
after the `.ok()` the source applies) unless the requested name is among
the selected columns. -/
def rowGetCol (selected : List String) (want : String) (v : Int) : Option Int :=
  if selected.contains want then some v else none

/-- The existence check of `mkdir_basic`: the row mapper requests column
`"is_there"`, which the SELECT list does not produce, so a matching row
makes `query_row` fail and `.ok()` yields `none`; with no matching row
`query_row` already fails.  Either way the result is `none`. -/
def mkdirExistenceCheck (db : DB) (parent : Int) (nameStr : String) : Option Int :=
  (db.paths.find? (fun r => r.parent == parent && r.name == nameStr)).bind
    (fun r => rowGetCol mkdirCheckSelectCols "is_there" r.inode)

/-- `INSERT OR IGNORE INTO Inode(perm) VALUES (?)`: all other columns
take their DDL defaults (kind 4, timestamps the current time `now`,
size, blocks, uid, gid, rdev, flags zero, perm the requested mode).  OR
IGNORE skips the row on a primary-key conflict. -/
def mkdirInsertInode (db : DB) (new mode now : Int) : DB :=
  if db.inodes.any (fun r => r.inode == new) then db
  else { db with inodes := db.inodes ++ [⟨new, 0, 0, now, now, now, now, 4, mode, 0, 0, 0, 0⟩] }

/-- `INSERT OR IGNORE INTO Path(inode, parent, name) VALUES (?,?,?)`:
OR IGNORE skips the row when the primary key on `inode` conflicts or
the `length(name) > 0` CHECK fails. -/
def mkdirInsertPath (db : DB) (new parent : Int) (nameStr : String) : DB :=
  if db.paths.any (fun r => r.inode == new) || nameStr.length == 0 then db
  else { db with paths := db.paths ++ [⟨new, parent, nameStr⟩] }

/-- `BasicFilesystem::mkdir_basic`: the transactional existence check,
then on `none` an `Inode` INSERT taking a fresh rowid followed by a
`Path` INSERT, then `getattr_basic` on the resulting id.  `now` stands
for the wall-clock value of the timestamp defaults. -/
def mkdir_basic (db : DB) (parent : Int) (name : List Nat) (mode now : Int) :
    DB × Except SqlError FileAttr :=
  let nameStr := mkdirBoundName name
  match mkdirExistenceCheck db parent nameStr with
  | some ino => (db, getattr_basic db ino)
  | none =>
    let new := nextRowid db
    let db1 := mkdirInsertPath (mkdirInsertInode db new mode now) new parent nameStr
    (db1, getattr_basic db1 new)

/-- `BasicFilesystem::rmdir_basic`: `DELETE FROM Path WHERE parent = ?
AND name = ?` with the lossily converted name; always returns unit. -/
def rmdir_basic (db : DB) (parent : Int) (name : List Nat) : DB × Except SqlError Unit :=
  let nameStr := mkdirBoundName name
  ({ db with paths := db.paths.filter (fun r => !(r.parent == parent && r.name == nameStr)) },
   .ok ())

/-- `libc::ENOENT`. -/
def ENOENT : Int := 2

/-- The constant reply time-to-live of src/main.rs. -/
def TTL : Timespec := ⟨1, 0⟩

/-- The reply a FUSE handler produces: `ReplyEntry::entry` and
`ReplyAttr::attr` carry a validity duration, `ReplyData::data` carries
raw bytes, a completed `ReplyDirectory` carries its added entries, and
every handler can report a numeric error. -/
inductive FuseReply
  | entry (ttl : Timespec) (a : FileAttr) (generation : Int)
  | attr (ttl : Timespec) (a : FileAttr)
  | data (buf : List Nat)
  | dir (entries : List DirectoryEntry)
  | error (code : Int)
deriving DecidableEq, Repr

/-- Whether a reply carries a time-to-live. -/
def replyHasTTL : FuseReply → Bool
  | .entry _ _ _ => true
  | .attr _ _ => true
  | _ => false

/-- `Filesystem::lookup`: runs the (identical, inlined) lookup query and
replies `entry(&TTL, attrs, 0)` on success, `error(ENOENT)` on any
failure. -/
def fsLookup (db : DB) (parent : Int) (name : List Nat) : FuseReply :=
  match lookupQuery db parent (lookupBoundName name) with
  | .ok a => .entry TTL a 0
  | .error _ => .error ENOENT

/-- `Filesystem::getattr`: replies `attr(&TTL, attrs)` on success,
`error(ENOENT)` on any failure. -/
def fsGetattr (db : DB) (ino : Int) : FuseReply :=
  match getattr_basic db ino with
  | .ok a => .attr TTL a
  | .error _ => .error ENOENT

/-- SELECT list of the query inside `Filesystem::read` in src/main.rs:
`content, offset_byte` — and `offset_byte` is not a `Page` column. -/
def fsReadSelectCols : List String := ["content", "offset_byte"]

/-- `Filesystem::read`: prepares its own query (it does not call
`read_basic`); on any failure replies `error(ENOENT)`, on success it
would reply `data(buf)` with the same WHERE semantics as `read_basic`. -/
def fsRead (db : DB) (ino offset size : Int) : FuseReply :=
  match prepareSelect fsReadSelectCols pageColumns with
  | .error _ => .error ENOENT
  | .ok _ =>
    -- unreachable: offset_byte does not resolve against Page
    .data (readBuf db ino offset size)

/-- `Filesystem::readdir`: same statements as `readdir_basic`; replies
`ok()` carrying the added entries on success, `error(ENOENT)` on any
failure. -/
def fsReaddir (db : DB) (ino : Int) : FuseReply :=
  match readdir_basic db ino with
  | .ok es => .dir es
  | .error _ => .error ENOENT

/-- The constraints the DDL actually places on `Path` rows: the primary
key on `inode` and the `length(name) > 0` CHECK. -/
def PathSchemaOk (l : List PathRow) : Prop :=
  (l.map (fun r => r.inode)).Nodup ∧ ∀ r ∈ l, 0 < r.name.length

/-- `xs` occurs contiguously inside `ys`. -/
def ContiguousIn (xs ys : List Nat) : Prop :=
  ∃ pre post, ys = pre ++ xs ++ post

instance (l : List PathRow) : Decidable (PathSchemaOk l) := by
  unfold PathSchemaOk
  infer_instance

/-- The state with all three tables empty. -/
def emptyDB : DB := ⟨[], [], []⟩

/-- The byte sequence of the name `docs`. -/
def docsBytes : List Nat := asciiBytes "docs"

/-- First `Mkdir(0, docs, 0o755)` call on the empty state. -/
def mkdirOnce : DB × Except SqlError FileAttr := mkdir_basic emptyDB 0 docsBytes 493 0

/-- Second, identical `Mkdir(0, docs, 0o755)` call on the resulting state. -/
def mkdirTwice : DB × Except SqlError FileAttr := mkdir_basic mkdirOnce.1 0 docsBytes 493 0

/-- The spec example pages: `(inode 5, 0..4, abcd)` and `(inode 5, 4..8, efgh)`. -/
def c4db : DB := ⟨[], [], [⟨5, 0, 4, asciiBytes "abcd"⟩, ⟨5, 4, 8, asciiBytes "efgh"⟩]⟩

/-- A page covering the whole window of the read `(5, 2, 4)`. -/
def covPage : PageRow := ⟨5, 0, 8, asciiBytes "abcdefgh"⟩

/-- A state holding only `covPage`. -/
def covDb : DB := ⟨[], [], [covPage]⟩

/-- The state the claims about the root describe: inode 0 a directory
and a self-parented root `Path` row with the empty name. -/
def rootStateDb : DB :=
  ⟨[⟨0, 0, 0, 0, 0, 0, 0, 3, 420, 0, 0, 0, 0⟩], [⟨0, 0, ""⟩], []⟩

/-- A state with one regular file (stored kind 4) at inode 3 named `x`
under parent 0. -/
def c8db : DB :=
  ⟨[⟨3, 0, 0, 0, 0, 0, 0, 4, 420, 0, 0, 0, 0⟩], [⟨3, 0, "x"⟩], []⟩

/-- Whether a fallible result is a success. -/
def exceptIsOk {ε α : Type _} : Except ε α → Bool
  | .ok _ => true
  | .error _ => false

/-!  Helper lemmas shared by the claim theorems. -/

/-- The existence check inside `mkdir_basic` always yields `none`: the
row mapper requests the absent column `is_there`. -/
theorem mkdirExistenceCheck_none (db : DB) (parent : Int) (nameStr : String) :
    mkdirExistenceCheck db parent nameStr = none := by
  unfold mkdirExistenceCheck
  cases db.paths.find? (fun r => r.parent == parent && r.name == nameStr) <;> rfl

/-- The `Inode` INSERT of `mkdir_basic` does not touch the `Path` table. -/
theorem mkdirInsertInode_paths (db : DB) (new mode now : Int) :
    (mkdirInsertInode db new mode now).paths = db.paths := by
  unfold mkdirInsertInode
  split <;> rfl

/-- Folding buffer extension over rows concatenates their contents. -/
theorem foldl_append_content (l : List PageRow) (acc : List Nat) :
    l.foldl (fun buf p => buf ++ p.content) acc
      = acc ++ (l.map (fun q => q.content)).flatten := by
  induction l generalizing acc with
  | nil => simp
  | cons a t ih => simp [ih, List.append_assoc]

/-- The content of any listed page occurs contiguously in the
concatenation of all the listed contents. -/
theorem contiguous_of_mem_flatten {p : PageRow} {l : List PageRow} (h : p ∈ l) :
    ContiguousIn p.content ((l.map (fun q => q.content)).flatten) := by
  induction l with
  | nil => cases h
  | cons a t ih =>
    rcases List.mem_cons.mp h with h1 | h2
    · exact ⟨[], (t.map (fun q => q.content)).flatten, by simp [h1]⟩
    · obtain ⟨pre, post, hp⟩ := ih h2
      exact ⟨a.content ++ pre, post, by simp [hp]⟩

/-!  Claim theorems. -/

/-- C1: the claim says two identical Mkdir calls create one Inode row
and return the same id.  The code disagrees: its existence check always
misses (the row mapper requests the absent column `is_there`), so the
second call creates a second Inode row and a second Path row and returns
a fresh id.  Evaluated at the failing input: two calls of
`Mkdir(0, docs, 0o755)` from the empty state yield Inode rows 1 and 2,
two Path rows for `(0, docs)`, and results 1 then 2. -/
theorem mkdir_twice_two_rows :
    mkdirTwice.1.inodes.map (fun r => r.inode) = [1, 2] ∧
    mkdirTwice.1.paths = [⟨1, 0, "docs"⟩, ⟨2, 0, "docs"⟩] ∧
    mkdirOnce.2.map (fun a => a.ino) = Except.ok 1 ∧
    mkdirTwice.2.map (fun a => a.ino) = Except.ok 2 :=
  ⟨rfl, rfl, rfl, rfl⟩

/-- C2: the claim says Mkdir followed by Lookup succeeds with the same
id and mode.  The lookup query selects FROM `Inode` but filters on
`parent` and `name`, columns `Inode` does not have, so it never prepares:
Lookup fails on every state, in particular right after a Mkdir. -/
theorem lookup_never_succeeds_round_trip :
    (∀ (db : DB) (parent : Int) (name : String),
      lookupQuery db parent name = .error .noSuchColumn) ∧
    lookup_basic mkdirOnce.1 0 docsBytes = .error .noSuchColumn :=
  ⟨fun _ _ _ => rfl, rfl⟩

/-- C3: the claim expects `Mkdir(0, docs, 0o755)` on a fresh database to
return directory attributes.  The initialization batch itself fails, and
even granting the empty-tables state, mkdir inserts only `perm`, so the
returned kind is the default 4 (regular file), not directory; the
subsequent listing does return one entry named docs with the same id
(its kind decoded, wrongly, from the inode number 1). -/
theorem init_fails_and_mkdir_kind_regular :
    exceptIsOk (execBatch [] elkridgeStmts) = false ∧
    mkdirOnce.2.map (fun a => (a.kind, a.perm, a.nlink))
      = Except.ok (FileType.regularFile, 493, 1) ∧
    FileType.regularFile ≠ FileType.directory ∧
    readdir_basic mkdirOnce.1 0 = .ok [⟨1, 0, FileType.charDevice, "docs"⟩] :=
  ⟨rfl, rfl, by decide, rfl⟩

/-- C4 counterexample: on the spec example pages, `Read(5, 2, 4)`
returns the empty buffer — the claimed bytes `cdef` are not in it.  The
WHERE clause keeps only pages whose range contains the whole window, and
neither example page contains `[2, 6]`. -/
theorem read_window_cex :
    read_basic c4db 5 2 4 = .ok [] ∧ ¬ ContiguousIn (asciiBytes "cdef") [] := by
  refine ⟨rfl, ?_⟩
  rintro ⟨pre, post, h⟩
  have h2 := h.symm
  rw [List.append_eq_nil] at h2
  have h3 := h2.1
  rw [List.append_eq_nil] at h3
  exact absurd h3.2 (by decide)

/-- C4 amended: Read selects the pages whose stored range contains the
whole window `[offset, offset + length]` (`start ≤ offset` and
`offset + length ≤ finish`), orders them by start and concatenates their
full content; every such containing page contributes its entire content
contiguously to the returned buffer. -/
theorem read_includes_covering_page (db : DB) (ino offset size : Int) (p : PageRow)
    (hmem : p ∈ db.pages) (hino : p.inode = ino)
    (h1 : p.start ≤ offset) (h2 : offset + size ≤ p.finish) :
    read_basic db ino offset size = .ok (readBuf db ino offset size) ∧
    ContiguousIn p.content (readBuf db ino offset size) := by
  refine ⟨rfl, ?_⟩
  have hpred : readPred ino offset size p = true := by
    simp [readPred, hino, h1, h2]
  have hf : p ∈ db.pages.filter (readPred ino offset size) :=
    List.mem_filter.mpr ⟨hmem, hpred⟩
  have hs : p ∈ List.insertionSort (fun a b : PageRow => a.start ≤ b.start)
      (db.pages.filter (readPred ino offset size)) := by
    simpa using hf
  rw [readBuf, foldl_append_content]
  simpa using contiguous_of_mem_flatten hs

/-- C4 witness: the page `(5, 0..8, abcdefgh)` contains the window of
`Read(5, 2, 4)` and its content appears contiguously in the result. -/
theorem read_includes_covering_page_w :
    covPage ∈ covDb.pages ∧ ContiguousIn covPage.content (readBuf covDb 5 2 4) :=
  ⟨by decide, (read_includes_covering_page covDb 5 2 4 covPage (by decide) rfl
    (by decide) (by decide)).2⟩

/-- C5 counterexample: even on a state that does hold the claimed root
rows (inode 0 a directory, Path row `(0, 0, empty-name)`), `Lookup(0,
empty-name)` fails — its query references columns `Inode` lacks — and
the initialization batch that was supposed to create the root errors
out. -/
theorem root_lookup_fails_cex :
    lookup_basic rootStateDb 0 [] = .error .noSuchColumn ∧
    exceptIsOk (execBatch [] elkridgeStmts) = false :=
  ⟨rfl, rfl⟩

/-- C5 amended: initialization never completes — the batch fails at
CREATE TABLE `Page`, whose CHECK clauses reference the nonexistent
column `offset`, and the root `Path` INSERT is itself invalid (it names
four columns, including `kind` which `Path` lacks, for three values) —
and `Lookup(0, empty-name)` fails on every database state because the
lookup query references columns `Inode` does not have. -/
theorem init_batch_fails_root_never_resolvable :
    execBatch [] elkridgeStmts = .error .noSuchColumn ∧
    stepStmt intendedCatalog rootPathInsertStmt = .error .insertMismatch ∧
    (∀ db : DB, exceptIsOk (lookup_basic db 0 []) = false) :=
  ⟨rfl, rfl, fun _ => rfl⟩

/-- C6 counterexample: a reachable, schema-valid state with two Path
rows sharing `(parent, name)`: two identical Mkdir calls from the empty
state produce Path rows `(1, 0, docs)` and `(2, 0, docs)`, and every
constraint the DDL actually declares (primary key on `inode`, nonempty
name) holds of it. -/
theorem path_duplicate_pair_cex :
    mkdirTwice.1.paths.map (fun r => (r.parent, r.name)) = [(0, "docs"), (0, "docs")] ∧
    PathSchemaOk mkdirTwice.1.paths := by
  exact ⟨rfl, by decide⟩

/-- C6 amended: the schema keys `Path` on `inode` alone, not on
`(parent, name)`: mkdir preserves the declared constraints (distinct
inode per Path row, nonempty names), while repeated identical Mkdir
calls produce two Path rows sharing `(parent, name)` — so `(parent,
name)` uniqueness is not enforced and Lookup is not made well-defined by
the schema. -/
theorem mkdir_preserves_inode_key_not_name_key (db : DB) (parent mode now : Int)
    (name : List Nat) (h : PathSchemaOk db.paths) :
    PathSchemaOk ((mkdir_basic db parent name mode now).1).paths ∧
    mkdirTwice.1.paths.map (fun r => r.inode) = [1, 2] := by
  refine ⟨?_, rfl⟩
  simp only [mkdir_basic, mkdirExistenceCheck_none]
  unfold mkdirInsertPath
  split
  · rw [mkdirInsertInode_paths]
    exact h
  · rename_i hcond
    rw [mkdirInsertInode_paths] at hcond ⊢
    rw [Bool.not_eq_true, Bool.or_eq_false_iff] at hcond
    obtain ⟨hany, hname⟩ := hcond
    rw [List.any_eq_false] at hany
    constructor
    · have hnotin : nextRowid db ∉ db.paths.map (fun r => r.inode) := by
        intro hmem2
        obtain ⟨r, hr, hre⟩ := List.mem_map.mp hmem2
        exact hany r hr (by simp [hre])
      have hperm := List.perm_append_singleton (nextRowid db)
        (db.paths.map (fun r => r.inode))
      have hnd : ((nextRowid db) :: db.paths.map (fun r => r.inode)).Nodup :=
        List.nodup_cons.mpr ⟨hnotin, h.1⟩
      have := hperm.nodup_iff.mpr hnd
      simpa using this
    · intro r hr
      rcases List.mem_append.mp hr with hl | hrr
      · exact h.2 r hl
      · have : r = ⟨nextRowid db, parent, mkdirBoundName name⟩ := by
          simpa using hrr
        rw [this]
        exact Nat.pos_of_ne_zero (by simpa using hname)

/-- C6 witness: the preservation part applied to the empty state. -/
theorem mkdir_preserves_inode_key_not_name_key_w :
    PathSchemaOk emptyDB.paths ∧
    PathSchemaOk ((mkdir_basic emptyDB 0 docsBytes 493 0).1).paths :=
  ⟨by decide, (mkdir_preserves_inode_key_not_name_key emptyDB 0 493 0 docsBytes
    (by decide)).1⟩

/-- C7 counterexample: a successful readdir reply carries no
time-to-live — the directory-stream reply has no TTL field at all — so
the claim that every successful handler reports with a fixed TTL fails
at this concrete request. -/
theorem readdir_reply_no_ttl_cex :
    fsReaddir c8db 0 = .dir [⟨3, 0, FileType.directory, "x"⟩] ∧
    replyHasTTL (fsReaddir c8db 0) = false :=
  ⟨rfl, rfl⟩

/-- C7 amended: every failure of the four handlers is reported as the
generic ENOENT; lookup and getattr successes carry the fixed TTL (and
lookup, like read, in fact always fails because its query references
nonexistent columns); read and readdir success replies carry no TTL. -/
theorem adapter_collapses_failures_to_enoent (db : DB) (parent ino offset size : Int)
    (name : List Nat) :
    fsLookup db parent name = .error ENOENT ∧
    fsRead db ino offset size = .error ENOENT ∧
    (fsGetattr db ino = .error ENOENT ∨ ∃ a, fsGetattr db ino = .attr TTL a) ∧
    (fsReaddir db ino = .error ENOENT ∨ ∃ es, fsReaddir db ino = .dir es) := by
  refine ⟨rfl, rfl, ?_, ?_⟩
  · rcases hg : getattr_basic db ino with e | a
    · exact Or.inl (by simp [fsGetattr, hg])
    · exact Or.inr ⟨a, by simp [fsGetattr, hg]⟩
  · rcases hg : readdir_basic db ino with e | es
    · exact Or.inl (by simp [fsReaddir, hg])
    · exact Or.inr ⟨es, by simp [fsReaddir, hg]⟩

/-- C8: the claim says each listed entry carries the kind decoded from
the stored kind of its joined Inode row.  The handler instead decodes
`row.get("inode")` — the inode id.  At the failing input, the child at
inode 3 has stored kind 4 (regular file) but is listed as a directory
(the decoding of 3); the per-row shape (one entry per matching Path
row, offset 0) is as claimed. -/
theorem readdir_kind_from_inode_column :
    readdir_basic c8db 0 = .ok [⟨3, 0, FileType.directory, "x"⟩] ∧
    c8db.inodes.map (fun r => filetype_from_code r.kind) = [FileType.regularFile] :=
  ⟨rfl, rfl⟩

/-- C9: the claim says `Filesystem::read` and `read_basic` compute the
same buffer.  They do not: the handler prepares `SELECT content,
offset_byte` and `offset_byte` is not a `Page` column, so the handler
replies ENOENT on every input, while `read_basic` (whose SELECT list
reads `content, start`) succeeds — shown universally and at the example
state. -/
theorem fs_read_enoent_vs_read_basic :
    (∀ (db : DB) (ino offset size : Int), fsRead db ino offset size = .error ENOENT) ∧
    read_basic c4db 5 2 4 = .ok [] ∧
    fsRead c4db 5 2 4 ≠ .data [] :=
  ⟨fun _ _ _ _ => rfl, rfl, by decide⟩

/-- C10: for a name that is not valid UTF-8, the lookup path binds the
empty string (`to_str().unwrap_or` of an undecodable byte sequence),
behaving exactly as `Lookup(parent, empty)`, while mkdir and rmdir bind
the lossy conversion; and after creating an entry under such a name,
lookup never finds it (lookup in fact fails on every input). -/
theorem lookup_name_replacement (db : DB) (parent mode now : Int) (name : List Nat)
    (h : utf8DecodeOpt name = none) :
    lookupBoundName name = "" ∧
    lookup_basic db parent name = lookup_basic db parent [] ∧
    mkdirBoundName name = utf8Lossy name ∧
    exceptIsOk (lookup_basic ((mkdir_basic db parent name mode now).1) parent name)
      = false := by
  refine ⟨?_, rfl, rfl, rfl⟩
  unfold lookupBoundName
  rw [h]
  rfl

/-- C10 witness: the single byte 255 is not valid UTF-8 and is bound as
the empty string on the lookup path. -/
theorem lookup_name_replacement_w :
    utf8DecodeOpt [255] = none ∧ lookupBoundName [255] = "" :=
  ⟨by decide, (lookup_name_replacement emptyDB 0 0 0 [255] (by decide)).1⟩
